import Mathlib

/-!
Shallow embedding of the bus-filter lambda (src/lambda/bus-filter.ts, the
enriched variant with route-point ETA lookup).  JavaScript numbers are
idealized as exact rationals throughout the data pipeline and as real
numbers inside the haversine distance computation.  `Option` models absent
values (undefined) and NaN results; a `none` result of a pipeline stage
that the source reaches through a non-optional property access models a
thrown TypeError.
-/

/-- JavaScript string truthiness for an optional string: undefined and the
empty string are falsy, every other string is truthy. -/
def truthyStr : Option String → Bool
  | none => false
  | some s => !(s == "")

/-- JavaScript number truthiness for an optional integer: null and 0 are
falsy (a NaN result is already represented by none upstream). -/
def truthyInt : Option Int → Bool
  | none => false
  | some n => !(n == 0)

/-- Numeric value of a list of decimal digit characters. -/
def digitsToNat (ds : List Char) : Nat :=
  ds.foldl (fun n c => 10 * n + (c.toNat - 48)) 0

/-- Value of a fractional digit block (the digits after the decimal point). -/
def fracValue (ds : List Char) : ℚ :=
  (digitsToNat ds : ℚ) / (10 : ℚ) ^ ds.length

/-- Scale factor of an exponent tail after the e or E marker: an optional
sign followed by at least one digit; a malformed tail contributes nothing,
matching parseFloat's longest-valid-prefix rule. -/
def exponentTail (cs : List Char) : ℚ :=
  match cs with
  | '+' :: ds =>
    if (ds.takeWhile Char.isDigit).isEmpty then 1
    else (10 : ℚ) ^ digitsToNat (ds.takeWhile Char.isDigit)
  | '-' :: ds =>
    if (ds.takeWhile Char.isDigit).isEmpty then 1
    else ((10 : ℚ) ^ digitsToNat (ds.takeWhile Char.isDigit))⁻¹
  | ds =>
    if (ds.takeWhile Char.isDigit).isEmpty then 1
    else (10 : ℚ) ^ digitsToNat (ds.takeWhile Char.isDigit)

/-- Scale factor contributed by a trailing exponent part as accepted by
JavaScript parseFloat. -/
def exponentValue (cs : List Char) : ℚ :=
  match cs with
  | 'e' :: rest => exponentTail rest
  | 'E' :: rest => exponentTail rest
  | _ => 1

/-- JsNum: a JavaScript number that is not NaN — a finite value, idealized
as an exact rational, or one of the two infinities.  NaN itself is
represented by none at the Option layer. -/
inductive JsNum where
  | finite (q : ℚ)
  | posInf
  | negInf
deriving DecidableEq

/-- JavaScript unary negation on a non-NaN number. -/
def jsNeg : JsNum → JsNum
  | JsNum.finite q => JsNum.finite (-q)
  | JsNum.posInf => JsNum.negInf
  | JsNum.negInf => JsNum.posInf

/-- JavaScript strict greater-than on non-NaN numbers (IEEE order with
infinities). -/
def jsGt : JsNum → JsNum → Bool
  | JsNum.finite a, JsNum.finite b => decide (a > b)
  | JsNum.finite _, JsNum.posInf => false
  | JsNum.finite _, JsNum.negInf => true
  | JsNum.posInf, JsNum.posInf => false
  | JsNum.posInf, _ => true
  | JsNum.negInf, _ => false

/-- The smallest exact magnitude that rounds to Infinity in IEEE double
precision (the midpoint between the largest finite double and 2^1024;
round-to-nearest-even sends the midpoint up). -/
def dblOverflowBound : ℚ := 2 ^ 1024 - 2 ^ 970

/-- A non-negative exact literal value as a double-producing conversion
sees it: Infinity on overflow, otherwise the finite value kept exact. -/
def finiteOrOverflow (q : ℚ) : JsNum :=
  if dblOverflowBound ≤ q then JsNum.posInf else JsNum.finite q

/-- The characters of the Infinity literal accepted by parseFloat. -/
def infinityChars : List Char :=
  ['I', 'n', 'f', 'i', 'n', 'i', 't', 'y']

/-- Whether the input starts with the Infinity literal. -/
def startsWithInfinity (cs : List Char) : Bool :=
  cs.take 8 == infinityChars

/-- JavaScript parseFloat on an unsigned literal: the Infinity literal
gives Infinity; otherwise the longest valid prefix of digits, optional
fraction and optional well-formed exponent gives its value (Infinity when
it overflows double range); none when no digit is found (parseFloat
returns NaN). -/
def parseUnsignedFloat (cs : List Char) : Option JsNum :=
  if startsWithInfinity cs then some JsNum.posInf
  else
    let intDigits := cs.takeWhile Char.isDigit
    let rest1 := cs.dropWhile Char.isDigit
    match rest1 with
    | '.' :: rest2 =>
      let fracDigits := rest2.takeWhile Char.isDigit
      let rest3 := rest2.dropWhile Char.isDigit
      if intDigits.isEmpty && fracDigits.isEmpty then none
      else some (finiteOrOverflow
        (((digitsToNat intDigits : ℚ) + fracValue fracDigits) * exponentValue rest3))
    | _ =>
      if intDigits.isEmpty then none
      else some (finiteOrOverflow ((digitsToNat intDigits : ℚ) * exponentValue rest1))

/-- Whitespace characters skipped by parseFloat (ASCII subset). -/
def jsWhitespace (c : Char) : Bool :=
  c == ' ' || c == '\t' || c == '\n' || c == '\r'

/-- JavaScript parseFloat: skip leading whitespace, optional sign, then the
longest valid literal prefix (decimal or Infinity); none models NaN. -/
def jsParseFloat (s : String) : Option JsNum :=
  match s.data.dropWhile jsWhitespace with
  | '-' :: cs => (parseUnsignedFloat cs).map jsNeg
  | '+' :: cs => parseUnsignedFloat cs
  | cs => parseUnsignedFloat cs

/-- Math.round: round to the nearest integer, halves toward positive
infinity, as an exact operation on rationals. -/
def jsRound (q : ℚ) : Int :=
  Int.floor (q + 1 / 2)

/-- JavaScript String.prototype.trim (ASCII whitespace subset), over the
underlying character list. -/
def jsTrim (s : String) : String :=
  String.mk (((s.data.dropWhile jsWhitespace).reverse.dropWhile jsWhitespace).reverse)

/-- Split of a character list at every comma, as String.prototype.split
with a comma separator does (an empty input gives one empty piece). -/
def splitOnCommaAux : List Char → List Char → List (List Char)
  | [], acc => [acc.reverse]
  | c :: rest, acc =>
    if c == ',' then acc.reverse :: splitOnCommaAux rest []
    else splitOnCommaAux rest (c :: acc)

/-- Split of a character list at every comma. -/
def splitOnComma (cs : List Char) : List (List Char) :=
  splitOnCommaAux cs []

/-- A single or double quote character. -/
def isQuoteChar (c : Char) : Bool :=
  c == Char.ofNat 39 || c == '"'

/-- Removal of one leading quote character when present. -/
def dropLeadingQuote : List Char → List Char
  | [] => []
  | c :: rest => if isQuoteChar c then rest else c :: rest

/-- Math.atan2 over the reals (finite inputs; signed zeros not modelled). -/
noncomputable def mathAtan2 (y x : ℝ) : ℝ :=
  if 0 < x then Real.arctan (y / x)
  else if x < 0 ∧ 0 ≤ y then Real.arctan (y / x) + Real.pi
  else if x < 0 then Real.arctan (y / x) - Real.pi
  else if 0 < y then Real.pi / 2
  else if y < 0 then -(Real.pi / 2)
  else 0

/-- calculateDistance: haversine distance in kilometres with Earth radius
6371, the JavaScript Math functions idealized over the reals. -/
noncomputable def calculateDistance (lat1 lon1 lat2 lon2 : ℝ) : ℝ :=
  let dLat := (lat2 - lat1) * (Real.pi / 180)
  let dLon := (lon2 - lon1) * (Real.pi / 180)
  let a := Real.sin (dLat / 2) * Real.sin (dLat / 2) +
    Real.cos (lat1 * (Real.pi / 180)) * Real.cos (lat2 * (Real.pi / 180)) *
    Real.sin (dLon / 2) * Real.sin (dLon / 2)
  let c := 2 * mathAtan2 (Real.sqrt a) (Real.sqrt (1 - a))
  6371 * c

/-- RoutePoint: a precomputed position on a line's path with a static
minutes-until-stop annotation, as read from a per-line JSON file. -/
structure RoutePoint where
  latitude : ℚ
  longitude : ℚ
  minutesAway : ℚ
deriving DecidableEq

/-- VehicleLocation: the nested location object of a raw feed record; the
single-element xml2js arrays are flattened so that a field holds the value
of Latitude[0] / Longitude[0] when present. -/
structure VehicleLocation where
  latitude : Option String
  longitude : Option String
deriving DecidableEq

/-- MonitoredVehicleJourney: the nested journey object of a raw feed
record (single-element xml2js arrays flattened as above). -/
structure MonitoredVehicleJourney where
  lineRef : Option String
  directionRef : Option String
  blockRef : Option String
  vehicleLocation : Option VehicleLocation
deriving DecidableEq

/-- VehicleActivity: one raw feed record as produced by the XML parse. -/
structure VehicleActivity where
  itemIdentifier : Option String
  recordedAtTime : Option String
  monitoredVehicleJourney : Option MonitoredVehicleJourney
deriving DecidableEq

/-- Distance from a bus position to a route point, via calculateDistance
(pipeline rationals cast into the real-valued distance computation). -/
noncomputable def distToPoint (busLat busLon : ℚ) (p : RoutePoint) : ℝ :=
  calculateDistance (busLat : ℝ) (busLon : ℝ) (p.latitude : ℝ) (p.longitude : ℝ)

/-- Loop of findNearestRoutePoint: the accumulator holds the current
nearestPoint together with its minDistance; none is the initial state
(nearestPoint null, minDistance Infinity), in which any real distance
passes the distance < minDistance test. -/
noncomputable def findNearestLoop (busLat busLon : ℚ) :
    List RoutePoint → Option (RoutePoint × ℝ) → Option RoutePoint
  | [], best => best.map Prod.fst
  | point :: rest, best =>
    let distance := distToPoint busLat busLon point
    match best with
    | none => findNearestLoop busLat busLon rest (some (point, distance))
    | some (nearestPoint, minDistance) =>
      if distance < minDistance then
        findNearestLoop busLat busLon rest (some (point, distance))
      else
        findNearestLoop busLat busLon rest (some (nearestPoint, minDistance))

/-- findNearestRoutePoint: null on an empty candidate list, otherwise a
linear scan keeping the first point achieving the minimal distance. -/
noncomputable def findNearestRoutePoint (busLat busLon : ℚ)
    (routePoints : List RoutePoint) : Option RoutePoint :=
  if routePoints.length = 0 then none
  else findNearestLoop busLat busLon routePoints none

/-- findNearestRoutePoint as invoked by the enrich stage, where either
coordinate may be NaN (none) or infinite: every distance computed from a
NaN or infinite input is NaN (the sine of an infinite angle is NaN), and
NaN < minDistance is always false, so no point is ever selected and the
result is null; only a pair of finite coordinates runs the real scan. -/
noncomputable def findNearestRoutePointN (busLat busLon : Option JsNum)
    (routePoints : List RoutePoint) : Option RoutePoint :=
  match busLat, busLon with
  | some (JsNum.finite la), some (JsNum.finite lo) =>
    findNearestRoutePoint la lo routePoints
  | _, _ => none

/-- Proof-side reference combinator: the better of two route points, the
incumbent winning ties (mirrors one loop step of findNearestRoutePoint). -/
noncomputable def pickBetter (busLat busLon : ℚ) (q p : RoutePoint) : RoutePoint :=
  if distToPoint busLat busLon p < distToPoint busLat busLon q then p else q

/-- BusLocation: one output entry of the pipeline.  Numeric fields are
Option ℚ with none standing for NaN (serialized as null); latLonString
keeps the two components of the interpolated lat/lon text (the exact
number-to-text rendering is not modelled). -/
structure BusLocation where
  latitude : Option JsNum
  longitude : Option JsNum
  latLonString : Option JsNum × Option JsNum
  estimatedMinutesAway : Option ℚ
  lineRef : String
  dataAgeMinutes : Option Int
  blockRef : Option String
deriving DecidableEq

/-- Filter stage of the pipeline, one raw record at a time: reject on any
missing journey/location/lineRef/directionRef/latitude, on an unparseable
latitude, on a line identifier outside the monitored set (compared after
trimming), or on a latitude not strictly north of the stop.  The
historical direction filter is removed in the source (commented out), so
no direction predicate is applied beyond requiring a non-empty
directionRef. -/
def filterActivity (busStopALineRefs : List String) (busStopALatitude : JsNum)
    (activity : VehicleActivity) : Bool :=
  let journey := activity.monitoredVehicleJourney
  let location := journey.bind MonitoredVehicleJourney.vehicleLocation
  let lineRef := journey.bind MonitoredVehicleJourney.lineRef
  let directionRef := journey.bind MonitoredVehicleJourney.directionRef
  let latitudeStr := location.bind VehicleLocation.latitude
  if journey.isNone || location.isNone || !(truthyStr lineRef) ||
      !(truthyStr directionRef) || !(truthyStr latitudeStr) then false
  else
    match jsParseFloat (latitudeStr.getD "") with
    | none => false
    | some latitude =>
      let trimmedLineRef := jsTrim (lineRef.getD "")
      if !(busStopALineRefs.contains trimmedLineRef) then false
      else if !(jsGt latitude busStopALatitude) then false
      else true

/-- Parse of the overall ResponseTimestamp, done once per invocation: a
truthy (present, non-empty) timestamp string is handed to the Date
collaborator, whose NaN getTime result is none; a falsy one yields null. -/
def computeResponseTimeMs (dateParse : String → Option Int)
    (responseTimestampStr : Option String) : Option Int :=
  if truthyStr responseTimestampStr then dateParse (responseTimestampStr.getD "")
  else none

/-- Per-record dataAgeMinutes: guarded by JavaScript truthiness of the
already-parsed responseTimeMs (null and 0 are both falsy) and of the raw
RecordedAtTime string; inside the guard, a parseable RecordedAtTime gives
Math.round of the millisecond age over 60000, an unparseable one null. -/
def computeDataAge (dateParse : String → Option Int) (responseTimeMs : Option Int)
    (recordedAtTimeStr : Option String) : Option Int :=
  if truthyInt responseTimeMs && truthyStr recordedAtTimeStr then
    match dateParse (recordedAtTimeStr.getD "") with
    | some recordedTimeMs =>
      some (jsRound (((responseTimeMs.getD 0 - recordedTimeMs : Int) : ℚ) / 60000))
    | none => none
  else none

/-- Spec-side dataAgeMinutes, written from the specification text: whenever
both the snapshot's responseTimestamp and the observation's recordedAt
parse to valid instants, round((responseTimestamp - recordedAt) / 60000),
not clamped; else null.  Used to compare the code against the claim. -/
def specDataAge (dateParse : String → Option Int)
    (responseTimestampStr recordedAtStr : Option String) : Option Int :=
  match responseTimestampStr.bind dateParse, recordedAtStr.bind dateParse with
  | some r, some t => some (jsRound (((r - t : Int) : ℚ) / 60000))
  | _, _ => none

/-- Enrich stage of the pipeline, one kept record at a time.  The source
reaches journey, location, lineRef, latitude and longitude through
non-optional accesses here; a none result models the TypeError thrown when
one of them is absent.  Longitude is parsed like latitude but its NaN
(none) result is kept in the output instead of gating it. -/
noncomputable def enrichActivity (dateParse : String → Option Int)
    (responseTimeMs : Option Int) (routeData : List (String × List RoutePoint))
    (activity : VehicleActivity) : Option BusLocation :=
  match activity.monitoredVehicleJourney with
  | none => none
  | some journey =>
    match journey.vehicleLocation with
    | none => none
    | some location =>
      match journey.lineRef with
      | none => none
      | some lineRef0 =>
        match location.latitude with
        | none => none
        | some latitudeStr =>
          match location.longitude with
          | none => none
          | some longitudeStr =>
            let lineRef := jsTrim lineRef0
            let blockRef := journey.blockRef
            let busLat := jsParseFloat latitudeStr
            let busLon := jsParseFloat longitudeStr
            let dataAgeMinutes := computeDataAge dateParse responseTimeMs activity.recordedAtTime
            let pointsForRoute := (routeData.lookup lineRef).getD []
            let nearestPoint := findNearestRoutePointN busLat busLon pointsForRoute
            some { latitude := busLat, longitude := busLon,
                   latLonString := (busLat, busLon),
                   estimatedMinutesAway := nearestPoint.map RoutePoint.minutesAway,
                   lineRef := lineRef, dataAgeMinutes := dataAgeMinutes,
                   blockRef := blockRef }

/-- JavaScript Array.prototype.map when the callback can throw: the whole
map fails (none) as soon as one element fails, no partial output. -/
def jsMapThrow {α β : Type} (f : α → Option β) : List α → Option (List β)
  | [] => some []
  | a :: l =>
    match f a with
    | none => none
    | some b =>
      match jsMapThrow f l with
      | none => none
      | some bs => some (b :: bs)

/-- The filter-then-map pipeline of the handler over the activity list. -/
noncomputable def processActivities (busStopALineRefs : List String)
    (busStopALatitude : JsNum) (dateParse : String → Option Int)
    (responseTimeMs : Option Int) (routeData : List (String × List RoutePoint))
    (activities : List VehicleActivity) : Option (List BusLocation) :=
  jsMapThrow (enrichActivity dateParse responseTimeMs routeData)
    (activities.filter (filterActivity busStopALineRefs busStopALatitude))

/-- loadRouteData: for each requested line identifier, retrieve and parse
its route file through the storage collaborator; any failure (missing
file or parse error alike) is caught and degrades that identifier's entry
to the empty list, never aborting the remaining identifiers. -/
def loadRouteData (readRouteFile : String → Option (List RoutePoint))
    (lineRefs : List String) : List (String × List RoutePoint) :=
  lineRefs.map (fun lineRef => (lineRef, (readRouteFile lineRef).getD []))

/-- Removal of every square-bracket character, as the regex replace of the
LineRefs environment string does. -/
def stripBrackets (s : String) : String :=
  String.mk (s.data.filter (fun c => !(c == '[' || c == ']')))

/-- Removal of one leading and one trailing quote character (single or
double), as the anchored regex replace on each split piece does. -/
def stripQuotes (s : String) : String :=
  String.mk ((dropLeadingQuote (dropLeadingQuote s.data).reverse).reverse)

/-- Parse of the BUS_STOP_A_LINEREFS environment string: strip brackets,
split on commas, trim and unquote each piece, drop empty pieces. -/
def parseLineRefs (s : String) : List String :=
  ((splitOnComma (stripBrackets s).data).map
    (fun ref => stripQuotes (jsTrim (String.mk ref)))).filter (fun ref => !(ref == ""))

/-- LambdaEnv: the four environment variables read by the handler. -/
structure LambdaEnv where
  busApiKey : Option String
  busStopALatitudeStr : Option String
  busStopALongitudeStr : Option String
  busStopALineRefsStr : Option String

/-- ResponseBody: the JSON-serialized body of a handler response, kept
structured (an error object with a message string, or the bus list). -/
inductive ResponseBody where
  | message (msg : String)
  | busList (buses : List BusLocation)
deriving DecidableEq

/-- HandlerResponse: status code plus body. -/
structure HandlerResponse where
  statusCode : Nat
  body : ResponseBody
deriving DecidableEq

/-- ActivitiesField: what sits at the VehicleActivity path of the parsed
feed tree — absent (undefined), present but not an array, or an array. -/
inductive ActivitiesField where
  | absent
  | nonArray
  | arr (activities : List VehicleActivity)
deriving DecidableEq

/-- FetchOutcome: result of the axios fetch plus XML parse — a thrown
error, or a parsed tree summarized by the two paths the handler reads. -/
inductive FetchOutcome where
  | failure
  | success (responseTimestampStr : Option String) (vehicleActivity : ActivitiesField)

/-- Defaulting of the activities value: undefined is replaced by [] (the
JavaScript or-else), and a non-array value is also replaced by []. -/
def extractActivities : ActivitiesField → List VehicleActivity
  | ActivitiesField.absent => []
  | ActivitiesField.nonArray => []
  | ActivitiesField.arr l => l

/-- The lambda handler over explicit collaborator outcomes: environment
variables, route-file storage, the fetch+parse outcome and the Date
parser.  A none result models an exception escaping the handler (which
the source does not catch outside the fetch try block). -/
noncomputable def handler (env : LambdaEnv)
    (readRouteFile : String → Option (List RoutePoint))
    (fetchOutcome : FetchOutcome) (dateParse : String → Option Int) :
    Option HandlerResponse :=
  if !(truthyStr env.busApiKey) || !(truthyStr env.busStopALatitudeStr) ||
      !(truthyStr env.busStopALongitudeStr) || !(truthyStr env.busStopALineRefsStr) then
    some ⟨500, ResponseBody.message "Missing required environment variables"⟩
  else
    let busStopALatitude := jsParseFloat (env.busStopALatitudeStr.getD "")
    let busStopALongitude := jsParseFloat (env.busStopALongitudeStr.getD "")
    let busStopALineRefs := parseLineRefs (env.busStopALineRefsStr.getD "")
    if busStopALatitude.isNone || busStopALongitude.isNone ||
        busStopALineRefs.length == 0 then
      some ⟨500, ResponseBody.message "Invalid or missing geo-coordinates or LineRefs"⟩
    else
      let routeData := loadRouteData readRouteFile busStopALineRefs
      match fetchOutcome with
      | FetchOutcome.failure =>
        some ⟨502, ResponseBody.message "Failed to fetch or parse bus API data"⟩
      | FetchOutcome.success responseTimestampStr activitiesField =>
        let activities := extractActivities activitiesField
        let responseTimeMs := computeResponseTimeMs dateParse responseTimestampStr
        match processActivities busStopALineRefs (busStopALatitude.getD (JsNum.finite 0)) dateParse
            responseTimeMs routeData activities with
        | none => none
        | some buses => some ⟨200, ResponseBody.busList buses⟩

/-- Concrete route point used to exercise the nearest-point matcher. -/
def ptW : RoutePoint := ⟨1, 2, 3⟩

/-- Date collaborator that parses nothing (every getTime is NaN). -/
def dpNone : String → Option Int := fun _ => none

/-- A record on line 27 at latitude 2, longitude 1, that passes the filter
against monitored set containing 27 and stop latitude 1. -/
def actKeep : VehicleActivity :=
  ⟨none, none, some ⟨some "27", some "inbound", none, some ⟨some "2", some "1"⟩⟩⟩

/-- Output entry produced from actKeep with no route data and no
timestamps. -/
def busKeep : BusLocation :=
  ⟨some (JsNum.finite 2), some (JsNum.finite 1),
    (some (JsNum.finite 2), some (JsNum.finite 1)), none, "27", none, none⟩

/-- A record with no journey at all, rejected by the filter. -/
def actDrop : VehicleActivity := ⟨none, none, none⟩

/-- A record that passes the filter but has no Longitude element. -/
def actNoLon : VehicleActivity :=
  ⟨none, none, some ⟨some "27", some "out", none, some ⟨some "2", none⟩⟩⟩

/-- Storage collaborator with data for line 27 only; everything else is a
retrieval failure. -/
def readW3 : String → Option (List RoutePoint) :=
  fun s => if s == "27" then some [ptW] else none

/-- Storage collaborator agreeing with readW3 on line 27 but succeeding
with empty data elsewhere. -/
def readW3b : String → Option (List RoutePoint) :=
  fun s => if s == "27" then some [ptW] else some []

/-- Date collaborator mapping the Unix epoch instant to 0 and the instant
one minute later to 60000, as new Date(...).getTime() does. -/
def dpEpoch : String → Option Int := fun s =>
  if s == "1970-01-01T00:00:00.000Z" then some 0
  else if s == "1970-01-01T00:01:00.000Z" then some 60000
  else none

/-- A kept record recorded one minute after the Unix epoch. -/
def actEpoch : VehicleActivity :=
  ⟨none, some "1970-01-01T00:01:00.000Z",
    some ⟨some "27", some "inbound", none, some ⟨some "2", some "1"⟩⟩⟩

/-- Date collaborator with a response instant R at 120000 ms and a
recording instant A at 180000 ms (the recording is after the response, so
the age is negative). -/
def dpAge : String → Option Int := fun s =>
  if s == "R" then some 120000
  else if s == "A" then some 180000
  else none

/-- A kept record recorded at instant A. -/
def actAge : VehicleActivity :=
  ⟨none, some "A", some ⟨some "27", some "inbound", none, some ⟨some "2", some "1"⟩⟩⟩

/-- A well-formed environment: stop at latitude 1, longitude 1, monitored
line set containing exactly 27. -/
def envW : LambdaEnv := ⟨some "k", some "1", some "1", some "[27]"⟩

/-- An environment whose LineRefs variable is present but denotes the
empty list. -/
def envEmptyRefs : LambdaEnv := ⟨some "k", some "1", some "1", some "[]"⟩

/-- A record on monitored line 27 whose Latitude string is the Infinity
literal. -/
def actInfLat : VehicleActivity :=
  ⟨none, none, some ⟨some "27", some "inbound", none, some ⟨some "Infinity", some "1"⟩⟩⟩

/-- An environment whose stop latitude string is the Infinity literal (a
non-finite, non-NaN coordinate). -/
def envInfLat : LambdaEnv := ⟨some "k", some "Infinity", some "1", some "[27]"⟩

theorem finiteOrOverflow_one : finiteOrOverflow 1 = JsNum.finite 1 := by
  norm_num [finiteOrOverflow, dblOverflowBound]

theorem finiteOrOverflow_two : finiteOrOverflow 2 = JsNum.finite 2 := by
  norm_num [finiteOrOverflow, dblOverflowBound]

theorem mathAtan2_zero_one : mathAtan2 0 1 = 0 := by
  unfold mathAtan2
  rw [if_pos one_pos]
  simp

theorem calculateDistance_self (lat lon : ℝ) :
    calculateDistance lat lon lat lon = 0 := by
  unfold calculateDistance
  simp [mathAtan2_zero_one]

theorem calculateDistance_comm (lat1 lon1 lat2 lon2 : ℝ) :
    calculateDistance lat1 lon1 lat2 lon2 = calculateDistance lat2 lon2 lat1 lon1 := by
  unfold calculateDistance
  have h1 : (lat1 - lat2) * (Real.pi / 180) / 2 = -((lat2 - lat1) * (Real.pi / 180) / 2) := by
    ring
  have h2 : (lon1 - lon2) * (Real.pi / 180) / 2 = -((lon2 - lon1) * (Real.pi / 180) / 2) := by
    ring
  simp only [h1, h2, Real.sin_neg]
  ring_nf

theorem findNearestLoop_eq_foldl (busLat busLon : ℚ) (S : List RoutePoint) :
    ∀ q : RoutePoint,
      findNearestLoop busLat busLon S (some (q, distToPoint busLat busLon q)) =
        some (S.foldl (pickBetter busLat busLon) q) := by
  induction S with
  | nil => intro q; rfl
  | cons a S ih =>
    intro q
    simp only [findNearestLoop]
    by_cases h : distToPoint busLat busLon a < distToPoint busLat busLon q
    · rw [if_pos h, ih a, List.foldl_cons]
      have hpb : pickBetter busLat busLon q a = a := by
        unfold pickBetter; exact if_pos h
      rw [hpb]
    · rw [if_neg h, ih q, List.foldl_cons]
      have hpb : pickBetter busLat busLon q a = q := by
        unfold pickBetter; exact if_neg h
      rw [hpb]

theorem foldl_pickBetter_spec (busLat busLon : ℚ) (S : List RoutePoint) :
    ∀ q : RoutePoint,
      (S.foldl (pickBetter busLat busLon) q = q ∧
        ∀ p ∈ S, distToPoint busLat busLon q ≤ distToPoint busLat busLon p) ∨
      (∃ l1 r l2, S = l1 ++ r :: l2 ∧
        S.foldl (pickBetter busLat busLon) q = r ∧
        distToPoint busLat busLon r < distToPoint busLat busLon q ∧
        (∀ p ∈ l1, distToPoint busLat busLon r < distToPoint busLat busLon p) ∧
        (∀ p ∈ l2, distToPoint busLat busLon r ≤ distToPoint busLat busLon p)) := by
  induction S with
  | nil =>
    intro q
    left
    exact ⟨rfl, by simp⟩
  | cons a S ih =>
    intro q
    rw [List.foldl_cons]
    by_cases h : distToPoint busLat busLon a < distToPoint busLat busLon q
    · have hpb : pickBetter busLat busLon q a = a := by
        unfold pickBetter; exact if_pos h
      rw [hpb]
      rcases ih a with ⟨heq, hle⟩ | ⟨l1, r, l2, hsplit, heq, hlt, hl1, hl2⟩
      · right
        exact ⟨[], a, S, by simp, heq, h, by simp, hle⟩
      · right
        refine ⟨a :: l1, r, l2, by rw [hsplit, List.cons_append], heq, lt_trans hlt h, ?_, hl2⟩
        intro p hp
        rcases List.mem_cons.mp hp with hpa | hpl
        · rw [hpa]; exact hlt
        · exact hl1 p hpl
    · have hpb : pickBetter busLat busLon q a = q := by
        unfold pickBetter; exact if_neg h
      rw [hpb]
      rcases ih q with ⟨heq, hle⟩ | ⟨l1, r, l2, hsplit, heq, hlt, hl1, hl2⟩
      · left
        refine ⟨heq, ?_⟩
        intro p hp
        rcases List.mem_cons.mp hp with hpa | hpl
        · rw [hpa]; exact le_of_not_lt h
        · exact hle p hpl
      · right
        refine ⟨a :: l1, r, l2, by rw [hsplit, List.cons_append], heq, hlt, ?_, hl2⟩
        intro p hp
        rcases List.mem_cons.mp hp with hpa | hpl
        · rw [hpa]; exact lt_of_lt_of_le hlt (le_of_not_lt h)
        · exact hl1 p hpl

/-- C2: nearest(P, S) is null iff S is empty; on a non-empty S it returns a
point of S of minimal distanceKm to P, the first such point in scan order:
the returned point splits S into a strictly-farther prefix and a
no-closer suffix. -/
theorem findNearestRoutePoint_spec (busLat busLon : ℚ) (S : List RoutePoint) :
    (findNearestRoutePoint busLat busLon S = none ↔ S = []) ∧
    ∀ r, findNearestRoutePoint busLat busLon S = some r →
      ∃ l1 l2, S = l1 ++ r :: l2 ∧
        (∀ p ∈ l1, distToPoint busLat busLon r < distToPoint busLat busLon p) ∧
        (∀ p ∈ l2, distToPoint busLat busLon r ≤ distToPoint busLat busLon p) := by
  cases S with
  | nil =>
    constructor
    · simp [findNearestRoutePoint]
    · intro r hr
      simp [findNearestRoutePoint] at hr
  | cons a S =>
    have hrun : findNearestRoutePoint busLat busLon (a :: S) =
        some (S.foldl (pickBetter busLat busLon) a) := by
      unfold findNearestRoutePoint
      rw [if_neg (by simp)]
      simp only [findNearestLoop]
      exact findNearestLoop_eq_foldl busLat busLon S a
    constructor
    · rw [hrun]
      simp
    · intro r hr
      rw [hrun] at hr
      have hr2 : S.foldl (pickBetter busLat busLon) a = r := Option.some.inj hr
      rcases foldl_pickBetter_spec busLat busLon S a with
        ⟨heq, hle⟩ | ⟨l1, r2, l2, hsplit, heq, hlt, hl1, hl2⟩
      · have hra : r = a := by rw [← hr2, heq]
        subst hra
        exact ⟨[], S, rfl, by simp, hle⟩
      · have hrr : r = r2 := by rw [← hr2, heq]
        subst hrr
        refine ⟨a :: l1, l2, by rw [hsplit, List.cons_append], ?_, hl2⟩
        intro p hp
        rcases List.mem_cons.mp hp with hpa | hpl
        · rw [hpa]; exact hlt
        · exact hl1 p hpl

theorem findNearestRoutePoint_spec_witness :
    ∃ l1 l2, [ptW] = l1 ++ ptW :: l2 ∧
      (∀ p ∈ l1, distToPoint 0 0 ptW < distToPoint 0 0 p) ∧
      (∀ p ∈ l2, distToPoint 0 0 ptW ≤ distToPoint 0 0 p) :=
  (findNearestRoutePoint_spec 0 0 [ptW]).2 ptW (by rfl)

theorem filterActivity_true_iff (refs : List String) (stopLat : JsNum) (a : VehicleActivity) :
    filterActivity refs stopLat a = true ↔
      ∃ journey vehicleLoc lineRef directionRef latitudeStr latitude,
        a.monitoredVehicleJourney = some journey ∧
        journey.vehicleLocation = some vehicleLoc ∧
        journey.lineRef = some lineRef ∧ lineRef ≠ "" ∧
        journey.directionRef = some directionRef ∧ directionRef ≠ "" ∧
        vehicleLoc.latitude = some latitudeStr ∧
        jsParseFloat latitudeStr = some latitude ∧
        jsTrim lineRef ∈ refs ∧
        jsGt latitude stopLat = true := by
  cases hj : a.monitoredVehicleJourney with
  | none => simp [filterActivity, hj]
  | some j =>
    cases hv : j.vehicleLocation with
    | none => simp [filterActivity, hj, hv, truthyStr]
    | some loc =>
      cases hlr : j.lineRef with
      | none => simp [filterActivity, hj, hv, hlr, truthyStr]
      | some lr =>
        cases hdr : j.directionRef with
        | none => simp [filterActivity, hj, hv, hlr, hdr, truthyStr]
        | some dr =>
          cases hls : loc.latitude with
          | none => simp [filterActivity, hj, hv, hlr, hdr, hls, truthyStr]
          | some ls =>
            by_cases helr : lr = ""
            · simp [filterActivity, hj, hv, hlr, hdr, hls, truthyStr, helr]
            · by_cases hedr : dr = ""
              · simp [filterActivity, hj, hv, hlr, hdr, hls, truthyStr, helr, hedr]
              · by_cases hels : ls = ""
                · simp [filterActivity, hj, hv, hlr, hdr, hls, truthyStr, helr, hedr, hels,
                    jsParseFloat, parseUnsignedFloat, jsWhitespace, startsWithInfinity,
                    infinityChars]
                · cases hpf : jsParseFloat ls with
                  | none =>
                    simp [filterActivity, hj, hv, hlr, hdr, hls, truthyStr, helr, hedr, hels, hpf]
                  | some lat =>
                    by_cases hmem : jsTrim lr ∈ refs
                    · by_cases hcmp : jsGt lat stopLat = true
                      · simp [filterActivity, hj, hv, hlr, hdr, hls, truthyStr, helr, hedr, hels,
                          hpf, hmem, hcmp]
                      · simp [filterActivity, hj, hv, hlr, hdr, hls, truthyStr, helr, hedr, hels,
                          hpf, hmem, hcmp]
                    · simp [filterActivity, hj, hv, hlr, hdr, hls, truthyStr, helr, hedr, hels,
                        hpf, hmem]

/-- C1 counterexample: a record on monitored line 27 whose Latitude string
is "Infinity" is kept by the filter against a finite stop latitude —
parseFloat("Infinity") is Infinity, isNaN(Infinity) is false and
Infinity > stopLat holds — although its latitude string does not parse to
a finite number, refuting the claimed iff's finiteness conjunct. -/
theorem filter_finite_claim_counterexample :
    filterActivity ["27"] (JsNum.finite 1) actInfLat = true ∧
    jsParseFloat "Infinity" = some JsNum.posInf := by
  constructor
  · simp [filterActivity, actInfLat, truthyStr, jsParseFloat, parseUnsignedFloat,
      jsWhitespace, startsWithInfinity, infinityChars, jsGt, jsTrim]
  · simp [jsParseFloat, parseUnsignedFloat, jsWhitespace, startsWithInfinity, infinityChars]

/-- C1 amended: the filter stage keeps a raw record iff it normalizes
(journey and location present, non-empty line and direction identifiers,
latitude string parsing to a non-NaN number — possibly Infinity, which
the isNaN-only guard accepts), its trimmed line identifier is in the
monitored set by exact string match, and its latitude is strictly greater
than the stop's latitude under the JavaScript order with infinities.  The
optional direction predicate of the claim is not configured in this code
(the direction filter is removed), so its clause holds vacuously and no
direction comparison appears. -/
theorem filterStage_keep_iff (refs : List String) (stopLat : JsNum) (a : VehicleActivity) :
    filterActivity refs stopLat a = true ↔
      ∃ journey vehicleLoc lineRef directionRef latitudeStr latitude,
        a.monitoredVehicleJourney = some journey ∧
        journey.vehicleLocation = some vehicleLoc ∧
        journey.lineRef = some lineRef ∧ lineRef ≠ "" ∧
        journey.directionRef = some directionRef ∧ directionRef ≠ "" ∧
        vehicleLoc.latitude = some latitudeStr ∧
        jsParseFloat latitudeStr = some latitude ∧
        jsTrim lineRef ∈ refs ∧
        jsGt latitude stopLat = true :=
  filterActivity_true_iff refs stopLat a

theorem loadRouteData_lookup (readRouteFile : String → Option (List RoutePoint))
    (lineRefs : List String) (l : String) (h : l ∈ lineRefs) :
    (loadRouteData readRouteFile lineRefs).lookup l =
      some ((readRouteFile l).getD []) := by
  induction lineRefs with
  | nil => cases h
  | cons a rest ih =>
    rcases List.mem_cons.mp h with rfl | hmem
    · simp [loadRouteData, List.lookup]
    · by_cases hae : l = a
      · subst hae
        simp [loadRouteData, List.lookup]
      · have hbeq : (l == a) = false := by
          simp [hae]
        simp only [loadRouteData, List.map_cons, List.lookup, hbeq]
        exact ih hmem

/-- C3: loading route data gives every requested line identifier an entry
in the table — the retrieved points on success, the empty sequence on any
failure, never an absent entry — and the entry for one identifier depends
only on that identifier's own retrieval outcome, so a failure for a
sibling identifier never prevents it from being loaded. -/
theorem loadRouteData_total (read1 read2 : String → Option (List RoutePoint))
    (lineRefs : List String) (l : String) (h : l ∈ lineRefs) :
    (loadRouteData read1 lineRefs).lookup l = some ((read1 l).getD []) ∧
    (read1 l = read2 l →
      (loadRouteData read1 lineRefs).lookup l = (loadRouteData read2 lineRefs).lookup l) := by
  refine ⟨loadRouteData_lookup read1 lineRefs l h, fun he => ?_⟩
  rw [loadRouteData_lookup read1 lineRefs l h, loadRouteData_lookup read2 lineRefs l h, he]

theorem loadRouteData_total_witness :
    (loadRouteData readW3 ["27", "99"]).lookup "27" = some ((readW3 "27").getD []) ∧
    (loadRouteData readW3 ["27", "99"]).lookup "27" =
      (loadRouteData readW3b ["27", "99"]).lookup "27" :=
  ⟨(loadRouteData_total readW3 readW3b ["27", "99"] "27" (by simp)).1,
   (loadRouteData_total readW3 readW3b ["27", "99"] "27" (by simp)).2
     (by simp [readW3, readW3b])⟩

theorem enrichActivity_eq (dp : String → Option Int) (rtm : Option Int)
    (rd : List (String × List RoutePoint)) (a : VehicleActivity)
    (j : MonitoredVehicleJourney) (loc : VehicleLocation)
    (lr ls lonStr : String)
    (hj : a.monitoredVehicleJourney = some j) (hv : j.vehicleLocation = some loc)
    (hlr : j.lineRef = some lr) (hls : loc.latitude = some ls)
    (hlo : loc.longitude = some lonStr) :
    enrichActivity dp rtm rd a =
      some { latitude := jsParseFloat ls, longitude := jsParseFloat lonStr,
             latLonString := (jsParseFloat ls, jsParseFloat lonStr),
             estimatedMinutesAway :=
               (findNearestRoutePointN (jsParseFloat ls) (jsParseFloat lonStr)
                 ((rd.lookup (jsTrim lr)).getD [])).map RoutePoint.minutesAway,
             lineRef := jsTrim lr,
             dataAgeMinutes := computeDataAge dp rtm a.recordedAtTime,
             blockRef := j.blockRef } := by
  simp [enrichActivity, hj, hv, hlr, hls, hlo]

theorem enrichActivity_dataAge (dp : String → Option Int) (rtm : Option Int)
    (rd : List (String × List RoutePoint)) (a : VehicleActivity) (b : BusLocation)
    (h : enrichActivity dp rtm rd a = some b) :
    b.dataAgeMinutes = computeDataAge dp rtm a.recordedAtTime := by
  cases hj : a.monitoredVehicleJourney with
  | none => simp [enrichActivity, hj] at h
  | some j =>
    cases hv : j.vehicleLocation with
    | none => simp [enrichActivity, hj, hv] at h
    | some loc =>
      cases hlr : j.lineRef with
      | none => simp [enrichActivity, hj, hv, hlr] at h
      | some lr =>
        cases hls : loc.latitude with
        | none => simp [enrichActivity, hj, hv, hlr, hls] at h
        | some ls =>
          cases hlo : loc.longitude with
          | none => simp [enrichActivity, hj, hv, hlr, hls, hlo] at h
          | some lonStr =>
            rw [enrichActivity_eq dp rtm rd a j loc lr ls lonStr hj hv hlr hls hlo] at h
            cases Option.some.inj h
            rfl

theorem computeDataAge_eq_spec (dp : String → Option Int) (hempty : dp "" = none)
    (rsStr raStr : Option String) :
    computeDataAge dp (computeResponseTimeMs dp rsStr) raStr =
      if rsStr.bind dp = some 0 then none else specDataAge dp rsStr raStr := by
  cases rsStr with
  | none => simp [computeResponseTimeMs, computeDataAge, specDataAge, truthyStr, truthyInt]
  | some s =>
    by_cases hs : s = ""
    · subst hs
      simp [computeResponseTimeMs, computeDataAge, specDataAge, truthyStr, truthyInt, hempty]
    · have hrt : computeResponseTimeMs dp (some s) = dp s := by
        simp [computeResponseTimeMs, truthyStr, hs]
      rw [hrt]
      cases hds : dp s with
      | none => simp [computeDataAge, specDataAge, truthyInt, hds]
      | some r =>
        by_cases hr : r = 0
        · subst hr
          simp [computeDataAge, specDataAge, truthyInt, hds]
        · cases raStr with
          | none =>
            simp [computeDataAge, specDataAge, truthyInt, truthyStr, hds, hr]
          | some ra =>
            by_cases hra : ra = ""
            · subst hra
              simp [computeDataAge, specDataAge, truthyInt, truthyStr, hds, hr, hempty]
            · cases hdra : dp ra with
              | none =>
                simp [computeDataAge, specDataAge, truthyInt, truthyStr, hds, hr, hra, hdra]
              | some t =>
                simp [computeDataAge, specDataAge, truthyInt, truthyStr, hds, hr, hra, hdra]

/-- C4 counterexample: with the snapshot's responseTimestamp at the Unix
epoch — a valid instant whose getTime is 0, which is falsy — a kept
observation recorded one minute later gets dataAgeMinutes null from the
code, while the claim demands round((0 - 60000) / 60000) = -1. -/
theorem dataAgeMinutes_claim_counterexample :
    filterActivity ["27"] (JsNum.finite 1) actEpoch = true ∧
    (enrichActivity dpEpoch
        (computeResponseTimeMs dpEpoch (some "1970-01-01T00:00:00.000Z")) [] actEpoch).map
      BusLocation.dataAgeMinutes = some none ∧
    specDataAge dpEpoch (some "1970-01-01T00:00:00.000Z") actEpoch.recordedAtTime =
      some (-1) := by
  refine ⟨?_, ?_, ?_⟩
  · simp [filterActivity, actEpoch, truthyStr, jsParseFloat, parseUnsignedFloat,
      jsWhitespace, startsWithInfinity, infinityChars, finiteOrOverflow_one,
      finiteOrOverflow_two, jsNeg, jsGt, exponentValue, exponentTail, digitsToNat, jsTrim]
  · simp [enrichActivity, actEpoch, dpEpoch, computeDataAge, computeResponseTimeMs,
      truthyInt, truthyStr, findNearestRoutePointN, findNearestRoutePoint, jsParseFloat, parseUnsignedFloat,
      jsWhitespace, startsWithInfinity, infinityChars, finiteOrOverflow_one,
      finiteOrOverflow_two, jsNeg, jsGt, exponentValue, exponentTail, digitsToNat, jsTrim, List.lookup]
  · have hne : ¬ (("1970-01-01T00:01:00.000Z" : String) = "1970-01-01T00:00:00.000Z") := by
      decide
    norm_num [specDataAge, dpEpoch, actEpoch, jsRound, hne]

/-- C4 amended: for every kept observation, dataAgeMinutes equals
round((responseTimestamp - recordedAt) / 60000) whenever both timestamps
parse to valid instants and the response instant is not exactly the Unix
epoch (the code's truthiness guard also nulls out a parsed response
instant of 0); otherwise it is null.  The value may be negative and is
not clamped.  The hypothesis dp "" = none records that the Date
collaborator rejects the empty string, as new Date("") does. -/
theorem dataAgeMinutes_amended (dp : String → Option Int) (hempty : dp "" = none)
    (rsStr : Option String) (rd : List (String × List RoutePoint))
    (a : VehicleActivity) (b : BusLocation)
    (h : enrichActivity dp (computeResponseTimeMs dp rsStr) rd a = some b) :
    b.dataAgeMinutes =
      if rsStr.bind dp = some 0 then none
      else specDataAge dp rsStr a.recordedAtTime := by
  rw [enrichActivity_dataAge dp (computeResponseTimeMs dp rsStr) rd a b h,
    computeDataAge_eq_spec dp hempty rsStr a.recordedAtTime]

theorem dataAgeMinutes_amended_witness :
    (enrichActivity dpAge (computeResponseTimeMs dpAge (some "R")) [] actAge).map
      BusLocation.dataAgeMinutes = some (some (-1)) := by
  cases hb : enrichActivity dpAge (computeResponseTimeMs dpAge (some "R")) [] actAge with
  | none =>
    simp [enrichActivity, actAge, dpAge, computeDataAge, computeResponseTimeMs,
      truthyInt, truthyStr, findNearestRoutePointN, findNearestRoutePoint, jsParseFloat, parseUnsignedFloat,
      jsWhitespace, startsWithInfinity, infinityChars, finiteOrOverflow_one,
      finiteOrOverflow_two, jsNeg, jsGt, exponentValue, exponentTail, digitsToNat, jsTrim, List.lookup] at hb
  | some b =>
    have h := dataAgeMinutes_amended dpAge (by simp [dpAge]) (some "R") [] actAge b hb
    have hne : ¬ (("A" : String) = "R") := by decide
    simp only [Option.map_some', h]
    norm_num [specDataAge, dpAge, actAge, jsRound, hne]

/-- C5 counterexample: a record with a journey on monitored line 27, a
direction, and a parseable latitude north of the stop, but no Longitude
element, passes the filter, yet the enrich stage's non-optional Longitude
access throws (modelled none): no output entry is produced for it, so the
longitude access can fail and absence of longitude does not yield an
entry. -/
theorem longitude_absent_counterexample :
    filterActivity ["27"] (JsNum.finite 1) actNoLon = true ∧
    enrichActivity dpNone none [] actNoLon = none := by
  constructor
  · simp [filterActivity, actNoLon, truthyStr, jsParseFloat, parseUnsignedFloat,
      jsWhitespace, startsWithInfinity, infinityChars, finiteOrOverflow_one,
      finiteOrOverflow_two, jsNeg, jsGt, exponentValue, exponentTail, digitsToNat, jsTrim]
  · simp [enrichActivity, actNoLon]

/-- C5 amended: for every record that passes the latitude, line and
direction checks, an output entry is produced whenever the longitude
string is present, even when it does not parse to a number (the entry
then carries the NaN longitude); only when the longitude element is
absent entirely does the enrichment access throw. -/
theorem enrich_longitude_present (refs : List String) (stopLat : JsNum)
    (dp : String → Option Int) (rtm : Option Int)
    (rd : List (String × List RoutePoint)) (a : VehicleActivity) (lonStr : String)
    (hf : filterActivity refs stopLat a = true)
    (hlon : (a.monitoredVehicleJourney.bind MonitoredVehicleJourney.vehicleLocation).bind
        VehicleLocation.longitude = some lonStr) :
    (enrichActivity dp rtm rd a).map BusLocation.longitude =
      some (jsParseFloat lonStr) := by
  rcases (filterActivity_true_iff refs stopLat a).mp hf with
    ⟨j, loc, lr, dr, ls, lat, hj, hv, hlr, hlrne, hdr, hdrne, hls, hpf, hmem, hcmp⟩
  simp only [hj, hv, Option.some_bind] at hlon
  rw [enrichActivity_eq dp rtm rd a j loc lr ls lonStr hj hv hlr hls hlon]
  rfl

theorem enrich_longitude_present_witness :
    (enrichActivity dpNone none [] actKeep).map BusLocation.longitude =
      some (jsParseFloat "1") :=
  enrich_longitude_present ["27"] (JsNum.finite 1) dpNone none [] actKeep "1"
    (by simp [filterActivity, actKeep, truthyStr, jsParseFloat, parseUnsignedFloat,
      jsWhitespace, startsWithInfinity, infinityChars, finiteOrOverflow_one,
      finiteOrOverflow_two, jsNeg, jsGt, exponentValue, exponentTail, digitsToNat, jsTrim])
    (by simp [actKeep])

theorem jsMapThrow_forall2 {α β : Type} (f : α → Option β) :
    ∀ (l : List α) (out : List β), jsMapThrow f l = some out →
      List.Forall₂ (fun a b => f a = some b) l out := by
  intro l
  induction l with
  | nil =>
    intro out h
    simp only [jsMapThrow] at h
    cases Option.some.inj h
    exact List.Forall₂.nil
  | cons a t ih =>
    intro out h
    simp only [jsMapThrow] at h
    cases hfa : f a with
    | none => rw [hfa] at h; exact absurd h (by simp)
    | some b =>
      rw [hfa] at h
      cases hrec : jsMapThrow f t with
      | none => rw [hrec] at h; exact absurd h (by simp)
      | some bs =>
        rw [hrec] at h
        cases Option.some.inj h
        exact List.Forall₂.cons hfa (ih bs hrec)

theorem forall2_mem_left {α β : Type} {R : α → β → Prop} {p : α → Prop}
    {l : List α} {out : List β} (h : List.Forall₂ R l out) (hp : ∀ a ∈ l, p a) :
    List.Forall₂ (fun a b => p a ∧ R a b) l out := by
  induction h with
  | nil => exact List.Forall₂.nil
  | cons hR htail ih =>
    exact List.Forall₂.cons ⟨hp _ (List.mem_cons_self _ _), hR⟩
      (ih (fun x hx => hp x (List.mem_cons_of_mem _ hx)))

/-- C6: the emitted bus list aligns one-to-one and in order with the kept
subsequence of the raw input (each output entry produced by the enrich
stage from the corresponding kept record), and that kept subsequence is a
sublist of the input in input order: the output equals the input order
restricted to the kept records, with no re-sorting. -/
theorem pipeline_preserves_order (refs : List String) (stopLat : JsNum)
    (dp : String → Option Int) (rtm : Option Int)
    (rd : List (String × List RoutePoint)) (acts : List VehicleActivity)
    (out : List BusLocation)
    (h : processActivities refs stopLat dp rtm rd acts = some out) :
    List.Forall₂ (fun a b => filterActivity refs stopLat a = true ∧
        enrichActivity dp rtm rd a = some b)
      (acts.filter (filterActivity refs stopLat)) out ∧
    List.Sublist (acts.filter (filterActivity refs stopLat)) acts := by
  refine ⟨forall2_mem_left (jsMapThrow_forall2 _ _ _ h) ?_, List.filter_sublist acts⟩
  intro x hx
  exact List.of_mem_filter hx

theorem pipeline_preserves_order_witness :
    List.Forall₂ (fun a b => filterActivity ["27"] (JsNum.finite 1) a = true ∧
        enrichActivity dpNone none [] a = some b)
      (List.filter (filterActivity ["27"] (JsNum.finite 1)) [actKeep, actDrop]) [busKeep] ∧
    List.Sublist (List.filter (filterActivity ["27"] (JsNum.finite 1)) [actKeep, actDrop])
      [actKeep, actDrop] :=
  pipeline_preserves_order ["27"] (JsNum.finite 1) dpNone none [] [actKeep, actDrop] [busKeep]
    (by simp [processActivities, jsMapThrow, enrichActivity, actKeep, actDrop, dpNone,
      busKeep, computeDataAge, truthyInt, truthyStr, findNearestRoutePointN,
      findNearestRoutePoint, jsParseFloat, parseUnsignedFloat,
      jsWhitespace, startsWithInfinity, infinityChars, finiteOrOverflow_one,
      finiteOrOverflow_two, jsNeg, jsGt, exponentValue, exponentTail, digitsToNat, jsTrim, List.lookup, filterActivity, List.filter])

/-- C7: with the environment variables present and a valid configuration,
a fetch or top-level XML-parse failure makes the invocation return status
502 whose body is a JSON object with a message string, and nothing else —
no partial result is produced. -/
theorem fetch_failure_returns_502 (env : LambdaEnv)
    (read : String → Option (List RoutePoint)) (dp : String → Option Int)
    (h1 : truthyStr env.busApiKey = true)
    (h2 : truthyStr env.busStopALatitudeStr = true)
    (h3 : truthyStr env.busStopALongitudeStr = true)
    (h4 : truthyStr env.busStopALineRefsStr = true)
    (h5 : jsParseFloat (env.busStopALatitudeStr.getD "") ≠ none)
    (h6 : jsParseFloat (env.busStopALongitudeStr.getD "") ≠ none)
    (h7 : parseLineRefs (env.busStopALineRefsStr.getD "") ≠ []) :
    handler env read FetchOutcome.failure dp =
      some ⟨502, ResponseBody.message "Failed to fetch or parse bus API data"⟩ := by
  obtain ⟨la, hla⟩ := Option.ne_none_iff_exists'.mp h5
  obtain ⟨lb, hlb⟩ := Option.ne_none_iff_exists'.mp h6
  simp [handler, h1, h2, h3, h4, hla, hlb, beq_iff_eq, List.length_eq_zero, h7]

theorem fetch_failure_returns_502_witness :
    handler envW (fun _ => none) FetchOutcome.failure dpNone =
      some ⟨502, ResponseBody.message "Failed to fetch or parse bus API data"⟩ :=
  fetch_failure_returns_502 envW (fun _ => none) dpNone
    (by simp [envW, truthyStr]) (by simp [envW, truthyStr])
    (by simp [envW, truthyStr]) (by simp [envW, truthyStr])
    (by simp [envW, jsParseFloat, parseUnsignedFloat, jsWhitespace, startsWithInfinity,
      infinityChars])
    (by simp [envW, jsParseFloat, parseUnsignedFloat, jsWhitespace, startsWithInfinity,
      infinityChars])
    (by simp [envW, parseLineRefs, splitOnComma, splitOnCommaAux, stripBrackets,
      stripQuotes, dropLeadingQuote, isQuoteChar, jsTrim, jsWhitespace])

/-- C8 counterexample: with BUS_STOP_A_LATITUDE set to "Infinity" — a
non-finite stop coordinate — parseFloat yields Infinity, the isNaN-only
validation passes, and the invocation proceeds to consume the fetch
outcome: a fetch failure surfaces as status 502, not as the claimed
configuration-error 500, so a non-finite (but non-NaN) coordinate does
not stop the invocation before the fetch. -/
theorem nonfinite_config_claim_counterexample :
    jsParseFloat "Infinity" = some JsNum.posInf ∧
    handler envInfLat (fun _ => none) FetchOutcome.failure dpNone =
      some ⟨502, ResponseBody.message "Failed to fetch or parse bus API data"⟩ := by
  constructor
  · simp [jsParseFloat, parseUnsignedFloat, jsWhitespace, startsWithInfinity, infinityChars]
  · simp [handler, envInfLat, truthyStr, jsParseFloat, parseUnsignedFloat, jsWhitespace,
      startsWithInfinity, infinityChars, parseLineRefs, splitOnComma, splitOnCommaAux,
      stripBrackets, stripQuotes, dropLeadingQuote, isQuoteChar, jsTrim]

/-- C8 amended: when the environment variables are present but a stop
coordinate string parses to NaN (the isNaN-only check — merely non-finite
coordinates such as Infinity are not caught and the fetch proceeds) or
the parsed monitored line set is empty, the handler returns status 500
with the configuration-error message, and it does so for every fetch
outcome alike — the response is computed without inspecting the fetch,
modelling that no upstream fetch is needed. -/
theorem config_error_returns_500 (env : LambdaEnv)
    (read : String → Option (List RoutePoint)) (dp : String → Option Int)
    (f : FetchOutcome)
    (h1 : truthyStr env.busApiKey = true)
    (h2 : truthyStr env.busStopALatitudeStr = true)
    (h3 : truthyStr env.busStopALongitudeStr = true)
    (h4 : truthyStr env.busStopALineRefsStr = true)
    (h : jsParseFloat (env.busStopALatitudeStr.getD "") = none ∨
        jsParseFloat (env.busStopALongitudeStr.getD "") = none ∨
        parseLineRefs (env.busStopALineRefsStr.getD "") = []) :
    handler env read f dp =
      some ⟨500, ResponseBody.message "Invalid or missing geo-coordinates or LineRefs"⟩ := by
  rcases h with h | h | h <;>
    simp [handler, h1, h2, h3, h4, h]

theorem config_error_returns_500_witness :
    handler envEmptyRefs (fun _ => none) FetchOutcome.failure dpNone =
      some ⟨500, ResponseBody.message "Invalid or missing geo-coordinates or LineRefs"⟩ :=
  config_error_returns_500 envEmptyRefs (fun _ => none) dpNone FetchOutcome.failure
    (by simp [envEmptyRefs, truthyStr]) (by simp [envEmptyRefs, truthyStr])
    (by simp [envEmptyRefs, truthyStr]) (by simp [envEmptyRefs, truthyStr])
    (Or.inr (Or.inr (by simp [envEmptyRefs, parseLineRefs, splitOnComma, splitOnCommaAux,
      stripBrackets, stripQuotes, dropLeadingQuote, isQuoteChar, jsTrim, jsWhitespace])))

/-- C10: with a valid configuration and a successful fetch whose
vehicle-activity position is absent or holds a non-array value, the
handler treats the feed as empty and returns status 200 with the empty
list body, not an error status. -/
theorem missing_activities_returns_200 (env : LambdaEnv)
    (read : String → Option (List RoutePoint)) (dp : String → Option Int)
    (rsStr : Option String) (af : ActivitiesField)
    (h1 : truthyStr env.busApiKey = true)
    (h2 : truthyStr env.busStopALatitudeStr = true)
    (h3 : truthyStr env.busStopALongitudeStr = true)
    (h4 : truthyStr env.busStopALineRefsStr = true)
    (h5 : jsParseFloat (env.busStopALatitudeStr.getD "") ≠ none)
    (h6 : jsParseFloat (env.busStopALongitudeStr.getD "") ≠ none)
    (h7 : parseLineRefs (env.busStopALineRefsStr.getD "") ≠ [])
    (ha : af = ActivitiesField.absent ∨ af = ActivitiesField.nonArray) :
    handler env read (FetchOutcome.success rsStr af) dp =
      some ⟨200, ResponseBody.busList []⟩ := by
  obtain ⟨la, hla⟩ := Option.ne_none_iff_exists'.mp h5
  obtain ⟨lb, hlb⟩ := Option.ne_none_iff_exists'.mp h6
  rcases ha with rfl | rfl <;>
    simp [handler, h1, h2, h3, h4, hla, hlb, beq_iff_eq, List.length_eq_zero, h7,
      extractActivities, processActivities, jsMapThrow]

theorem missing_activities_returns_200_witness :
    handler envW (fun _ => none) (FetchOutcome.success none ActivitiesField.absent) dpNone =
      some ⟨200, ResponseBody.busList []⟩ :=
  missing_activities_returns_200 envW (fun _ => none) dpNone none ActivitiesField.absent
    (by simp [envW, truthyStr]) (by simp [envW, truthyStr])
    (by simp [envW, truthyStr]) (by simp [envW, truthyStr])
    (by simp [envW, jsParseFloat, parseUnsignedFloat, jsWhitespace, startsWithInfinity,
      infinityChars])
    (by simp [envW, jsParseFloat, parseUnsignedFloat, jsWhitespace, startsWithInfinity,
      infinityChars])
    (by simp [envW, parseLineRefs, splitOnComma, splitOnCommaAux, stripBrackets,
      stripQuotes, dropLeadingQuote, isQuoteChar, jsTrim, jsWhitespace])
    (Or.inl rfl)

/-- C9: distanceKm(a, a) = 0 for every coordinate a, and
distanceKm(a, b) = distanceKm(b, a) for all coordinates a and b, for the
haversine distance over the idealized reals. -/
theorem calculateDistance_refl_and_symm :
    (∀ lat lon : ℝ, calculateDistance lat lon lat lon = 0) ∧
    (∀ lat1 lon1 lat2 lon2 : ℝ,
      calculateDistance lat1 lon1 lat2 lon2 = calculateDistance lat2 lon2 lat1 lon1) :=
  ⟨calculateDistance_self, calculateDistance_comm⟩
